import Mathlib

/-!
Shallow embedding of the rendezvous/NAT-traversal coordinator of
`src/enterprise_rendezvous_server.rs` (EnterpriseRendezvousServer), covering
the UDP message handler (`handle_udp`), the key preprocessing
(`get_server_sk`), the device-session tier assignment
(`create_device_session`), the session sweep (`cleanup_expired_sessions`)
and the transport-resource recovery step of `start`.
-/

namespace Rdz

/-- Source socket address, split into the IP string (as produced by
`addr.ip().to_string()` in the source) and the port.  The RegisterPk
handler compares only the IP string. -/
structure SockAddr where
  ip : String
  port : Nat
deriving DecidableEq

/-- Stored peer record.  Modelled from the spec: the `Peer` data of
`crate::peer` (not under `src/`) holds the bound `uuid`, the bound
public key `pk` and the last stored IP string (`peer.info.ip` in the
source's reads). -/
structure Peer where
  uuid : String
  pk : String
  ip : String
deriving DecidableEq

/-- The empty placeholder record an unbound id maps to. -/
def emptyPeer : Peer := { uuid := "", pk := "", ip := "" }

/-- Peer directory, as an association list from ids to records.
Modelled from the spec: `PeerDirectory` of `crate::peer` is an
authoritative map from peer id to its record. -/
abbrev PeerMap := List (String × Peer)

/-- Modelled from the spec: `pm.get_or(&id)` returns the existing entry
or an empty placeholder. -/
def getOr (pm : PeerMap) (id : String) : Peer :=
  match pm.lookup id with
  | some p => p
  | none => emptyPeer

/-- Modelled from the spec: `pm.update_pk(id, peer, addr, uuid, pk, ip)`
stores the new `(uuid, pk, ip)` binding for `id`. -/
def updatePk (pm : PeerMap) (id uuid pk ip : String) : PeerMap :=
  (id, { uuid := uuid, pk := pk, ip := ip }) :: pm

/-- Result field of `RegisterPkResponse` (rendezvous_proto). -/
inductive RegisterPkResult
  | OK
  | UUID_MISMATCH
  | TOO_FREQUENT
deriving DecidableEq

/-- Outcome of the `(changed, ip_changed)` block of the RegisterPk arm of
`handle_udp` (the spec's `try_bind` decision): either an identity mismatch
(the source replies UUID_MISMATCH and returns), or acceptance carrying the
`changed` flag. -/
inductive BindResult
  | accepted (changed : Bool)
  | identityMismatch
deriving DecidableEq

/-- The decision block of the RegisterPk arm (source lines 521-555):
an empty stored uuid means first binding (`(true, false)`); a matching
stored uuid with both stored ip and stored pk differing from the supplied
ones is a mismatch; a differing stored uuid is a mismatch; otherwise
`changed = peer.uuid != uuid || peer.pk != pk || ip_changed`. -/
def tryBindDecision (peer : Peer) (uuid pk ip : String) : BindResult :=
  if peer.uuid = "" then
    .accepted true
  else if peer.uuid = uuid then
    if peer.ip ≠ ip ∧ peer.pk ≠ pk then
      .identityMismatch
    else
      .accepted (decide (peer.uuid ≠ uuid) || decide (peer.pk ≠ pk) || decide (peer.ip ≠ ip))
  else
    .identityMismatch

/-- Externally visible effects of one `handle_udp` dispatch: protocol
messages sent back on the socket, the best-effort device registration in
the enterprise database, the address recording of `update_addr`
(modelled from the spec: the original `update_addr`, stubbed in this
file of the source, records the observed address for the id), and the
post-gate punch-hole processing (which is where the directory lookup
`pm.is_in_memory` and the punch-hole resolution happen). -/
inductive Action
  | sendRegisterPkResponse (r : RegisterPkResult)
  | sendConfigUpdate (serial : Int) (rendezvousServers : List String)
  | sendPunchHoleLicenseMismatch
  | punchHoleLookup (targetId : String)
  | registerDevice (id ip : String)
  | recordAddr (id : String) (addr : SockAddr)
deriving DecidableEq

/-- The message kinds of the rendezvous protocol union handled by
`handle_udp`; every other kind falls to the catch-all arm. -/
inductive RendezvousMessage
  | registerPeer (id : String) (serial : Int)
  | registerPk (id uuid pk : String)
  | punchHoleRequest (id licenceKey : String)
  | other
deriving DecidableEq

/-- Server-side configuration read by `handle_udp` from `self.inner` and
`self.rendezvous_servers`. -/
structure Inner where
  serial : Int
  rendezvousServers : List String
deriving DecidableEq

/-- Result of one `handle_udp` dispatch: the peer directory afterwards and
the emitted effects, in source order. -/
structure UdpOutcome where
  pm : PeerMap
  actions : List Action
deriving DecidableEq

/-- One dispatch of `EnterpriseRendezvousServer::handle_udp` (source lines
463-596).  `ipBlocker` stands for `self.check_ip_blocker(&ip, &id)`, whose
policy lives outside this file (the source stubs it to `true`); `key` is
the effective key computed by `get_server_sk` and passed into the io loop. -/
def handleUdp (inner : Inner) (ipBlocker : String → String → Bool) (key : String)
    (pm : PeerMap) (msg : RendezvousMessage) (addr : SockAddr) : UdpOutcome :=
  match msg with
  | .registerPeer id serial =>
    if id = "" then
      { pm := pm, actions := [] }
    else
      let base := [Action.registerDevice id addr.ip, Action.recordAddr id addr]
      if inner.serial > serial then
        { pm := pm,
          actions := base ++ [Action.sendConfigUpdate inner.serial inner.rendezvousServers] }
      else
        { pm := pm, actions := base }
  | .registerPk id uuid pk =>
    if uuid = "" ∨ pk = "" then
      { pm := pm, actions := [] }
    else
      let ip := addr.ip
      if id.length < 6 then
        { pm := pm, actions := [Action.sendRegisterPkResponse .UUID_MISMATCH] }
      else if !ipBlocker ip id then
        { pm := pm, actions := [Action.sendRegisterPkResponse .TOO_FREQUENT] }
      else
        let peer := getOr pm id
        match tryBindDecision peer uuid pk ip with
        | .identityMismatch =>
          { pm := pm, actions := [Action.sendRegisterPkResponse .UUID_MISMATCH] }
        | .accepted changed =>
          if changed then
            { pm := updatePk pm id uuid pk ip,
              actions := [Action.sendRegisterPkResponse .OK] }
          else
            { pm := pm, actions := [Action.sendRegisterPkResponse .OK] }
  | .punchHoleRequest targetId licenceKey =>
    if key ≠ "" ∧ licenceKey ≠ key then
      { pm := pm, actions := [Action.sendPunchHoleLicenseMismatch] }
    else
      { pm := pm, actions := [Action.punchHoleLookup targetId] }
  | .other => { pm := pm, actions := [] }

/-- `sign::SECRETKEYBYTES` for ed25519. -/
def SECRETKEYBYTES : Nat := 64

/-- The effective-key computation of
`EnterpriseRendezvousServer::get_server_sk` (source lines 601-627).
`decode64`/`encode64` stand for `base64::decode`/`base64::encode`, and
`genPk` for the public key returned by `crate::common::gen_sk(0)` (not
under `src/`; it base64-encodes a generated or persisted public key). -/
def getServerSkKey (decode64 : String → Option (List Nat)) (encode64 : List Nat → String)
    (genPk : String) (key0 : String) : String :=
  let key1 :=
    match decode64 key0 with
    | some sk =>
      if sk.length = SECRETKEYBYTES then encode64 (sk.drop (SECRETKEYBYTES / 2)) else key0
    | none => key0
  if key1 = "" ∨ key1 = "-" ∨ key1 = "_" then
    if key1 ≠ "" then genPk else key1
  else
    key1

/-- Capability set and timeout of a device session (`DevicePermissions`,
source lines 104-112).  Durations are modelled in seconds. -/
structure DevicePermissions where
  can_control : Bool
  can_transfer_files : Bool
  can_view_screen : Bool
  can_use_audio : Bool
  can_use_clipboard : Bool
  session_timeout : Option Nat
deriving DecidableEq

/-- `impl Default for DevicePermissions` (source lines 114-125): all five
capabilities off and a one-hour (3600 s) timeout. -/
def DevicePermissions.default : DevicePermissions :=
  { can_control := false
    can_transfer_files := false
    can_view_screen := false
    can_use_audio := false
    can_use_clipboard := false
    session_timeout := some 3600 }

/-- `DeviceSession` (source lines 94-102); `Instant` is modelled as a
natural number of seconds. -/
structure DeviceSession where
  device_id : String
  user_id : Option String
  authenticated : Bool
  last_activity : Nat
  permissions : DevicePermissions
  connection_count : Nat
deriving DecidableEq

/-- The session built by
`EnterpriseRendezvousServer::create_device_session` (source lines 402-425):
an authenticated user gets every capability and an eight-hour (28800 s)
timeout, an anonymous one the default tier. -/
def createDeviceSession (now : Nat) (device_id : String) (user_id : Option String) :
    DeviceSession :=
  let permissions :=
    if user_id.isSome then
      { can_control := true
        can_transfer_files := true
        can_view_screen := true
        can_use_audio := true
        can_use_clipboard := true
        session_timeout := some 28800 }
    else
      DevicePermissions.default
  { device_id := device_id
    user_id := user_id
    authenticated := user_id.isSome
    last_activity := now
    permissions := permissions
    connection_count := 1 }

/-- The retain predicate of
`EnterpriseRendezvousServer::cleanup_expired_sessions` (source lines
451-459): drop the session exactly when it has a configured timeout and
`now.duration_since(last_activity)` exceeds it. -/
def sessionRetained (now : Nat) (s : DeviceSession) : Bool :=
  match s.permissions.session_timeout with
  | some t => if now - s.last_activity > t then false else true
  | none => true

/-- One run of `cleanup_expired_sessions` over the session map (modelled as
an association list). -/
def cleanupExpiredSessions (now : Nat) (sessions : List (String × DeviceSession)) :
    List (String × DeviceSession) :=
  sessions.filter fun e => sessionRetained now e.2

/-- A bound transport resource; `gen` distinguishes recreated instances of
the same port. -/
structure Resource where
  port : Int
  gen : Nat
deriving DecidableEq

/-- The four transport resources owned by the serving loop. -/
structure Resources where
  socket : Resource
  listener : Resource
  listener2 : Resource
  listener3 : Resource
deriving DecidableEq

/-- The failure kinds returned by `io_loop` (source lines 127-132). -/
inductive LoopFailure
  | UdpSocket
  | Listener3
  | Listener2
  | Listener
deriving DecidableEq

/-- The recovery step of the `main_task` loop in
`EnterpriseRendezvousServer::start` (source lines 255-287): on each
failure kind, drop exactly the failed resource and recreate it on its
original port (`nat_port = port - 1`, `ws_port = port + 2`); a failure of
the recreation itself (the `?` operator) escalates as a fatal error. -/
def recreateFailed (createUdpListener createTcpListener : Int → Except String Resource)
    (port : Int) (f : LoopFailure) (r : Resources) : Except String Resources :=
  match f with
  | .UdpSocket =>
    match createUdpListener port with
    | .ok s => .ok { r with socket := s }
    | .error e => .error e
  | .Listener =>
    match createTcpListener port with
    | .ok l => .ok { r with listener := l }
    | .error e => .error e
  | .Listener2 =>
    match createTcpListener (port - 1) with
    | .ok l => .ok { r with listener2 := l }
    | .error e => .error e
  | .Listener3 =>
    match createTcpListener (port + 2) with
    | .ok l => .ok { r with listener3 := l }
    | .error e => .error e

/-- The creation call `recreateFailed` makes for a given failure kind. -/
def recreateCall (createUdpListener createTcpListener : Int → Except String Resource)
    (port : Int) : LoopFailure → Except String Resource
  | .UdpSocket => createUdpListener port
  | .Listener => createTcpListener port
  | .Listener2 => createTcpListener (port - 1)
  | .Listener3 => createTcpListener (port + 2)

/-- When the early guards of the RegisterPk arm all pass, `handle_udp`
reaches the bind decision. -/
lemma handleUdp_registerPk_bind (inner : Inner) (g : String → String → Bool) (key : String)
    (pm : PeerMap) (id uuid pk : String) (addr : SockAddr)
    (hUuid : uuid ≠ "") (hPk : pk ≠ "") (hlen : ¬ id.length < 6) (hg : g addr.ip id = true) :
    handleUdp inner g key pm (.registerPk id uuid pk) addr =
      match tryBindDecision (getOr pm id) uuid pk addr.ip with
      | .identityMismatch =>
        { pm := pm, actions := [Action.sendRegisterPkResponse .UUID_MISMATCH] }
      | .accepted changed =>
        if changed then
          { pm := updatePk pm id uuid pk addr.ip,
            actions := [Action.sendRegisterPkResponse .OK] }
        else
          { pm := pm, actions := [Action.sendRegisterPkResponse .OK] } := by
  simp [handleUdp, hUuid, hPk, hlen, hg]

/-- Roaming: uuid and pk match the stored record, the ip differs. -/
lemma tryBind_roaming (peer : Peer) (uuid pk ip : String)
    (hb : peer.uuid ≠ "") (hu : peer.uuid = uuid) (hpk : peer.pk = pk) (hip : peer.ip ≠ ip) :
    tryBindDecision peer uuid pk ip = .accepted true := by
  unfold tryBindDecision
  rw [if_neg hb, if_pos hu, if_neg (fun h => h.2 hpk)]
  simp [hu, hpk, hip]

/-- Simultaneous pk and ip mismatch under a matching uuid. -/
lemma tryBind_pk_ip_mismatch (peer : Peer) (uuid pk ip : String)
    (hb : peer.uuid ≠ "") (hu : peer.uuid = uuid) (hpk : peer.pk ≠ pk) (hip : peer.ip ≠ ip) :
    tryBindDecision peer uuid pk ip = .identityMismatch := by
  unfold tryBindDecision
  rw [if_neg hb, if_pos hu, if_pos ⟨hip, hpk⟩]

/-- A differing uuid on a bound record is always a mismatch. -/
lemma tryBind_uuid_mismatch (peer : Peer) (uuid pk ip : String)
    (hb : peer.uuid ≠ "") (hu : peer.uuid ≠ uuid) :
    tryBindDecision peer uuid pk ip = .identityMismatch := by
  unfold tryBindDecision
  rw [if_neg hb, if_neg hu]

/-- Acceptance with `changed = false` forces the stored record to agree
with the supplied uuid, pk and ip. -/
lemma tryBind_accepted_false_inv (peer : Peer) (uuid pk ip : String)
    (h : tryBindDecision peer uuid pk ip = .accepted false) :
    peer.uuid = uuid ∧ peer.pk = pk ∧ peer.ip = ip := by
  unfold tryBindDecision at h
  by_cases hb : peer.uuid = ""
  · rw [if_pos hb] at h
    simp at h
  · rw [if_neg hb] at h
    by_cases hu : peer.uuid = uuid
    · rw [if_pos hu] at h
      by_cases hm : peer.ip ≠ ip ∧ peer.pk ≠ pk
      · rw [if_pos hm] at h
        simp at h
      · rw [if_neg hm] at h
        have hinj : (decide (peer.uuid ≠ uuid) || decide (peer.pk ≠ pk) ||
            decide (peer.ip ≠ ip)) = false := by
          injection h
        simp only [Bool.or_eq_false_iff, decide_eq_false_iff_not, not_not] at hinj
        exact ⟨hu, hinj.1.2, hinj.2⟩
    · rw [if_neg hu] at h
      simp at h

/-- Re-registering the exact stored record is a `changed = false`
acceptance. -/
lemma tryBind_noop (uuid pk ip : String) (hU : uuid ≠ "") :
    tryBindDecision { uuid := uuid, pk := pk, ip := ip } uuid pk ip = .accepted false := by
  simp [tryBindDecision, hU]

/-- The record stored by `updatePk` is the one a later `getOr` returns. -/
lemma getOr_updatePk (pm : PeerMap) (id uuid pk ip : String) :
    getOr (updatePk pm id uuid pk ip) id = { uuid := uuid, pk := pk, ip := ip } := by
  simp [getOr, updatePk, List.lookup]

/-- Claim C1: on a RegisterPk for an id already bound to a
`(uuid, public_key)` pair (and reaching the bind decision): same uuid and
pk with a different source address is accepted with `changed = true` and
an OK reply; same uuid with pk and address both differing simultaneously
is UUID_MISMATCH with the directory unchanged; a differing uuid is
UUID_MISMATCH with the directory unchanged. -/
theorem c1_bound_id_rebind (inner : Inner) (g : String → String → Bool) (key : String)
    (pm : PeerMap) (id uuid pk : String) (addr : SockAddr) (peer : Peer)
    (hpeer : getOr pm id = peer) (hbound : peer.uuid ≠ "")
    (hUuid : uuid ≠ "") (hPk : pk ≠ "") (hlen : 6 ≤ id.length) (hg : g addr.ip id = true) :
    ((uuid = peer.uuid ∧ pk = peer.pk ∧ addr.ip ≠ peer.ip) →
      tryBindDecision peer uuid pk addr.ip = .accepted true ∧
      handleUdp inner g key pm (.registerPk id uuid pk) addr =
        { pm := updatePk pm id uuid pk addr.ip,
          actions := [Action.sendRegisterPkResponse .OK] }) ∧
    ((uuid = peer.uuid ∧ pk ≠ peer.pk ∧ addr.ip ≠ peer.ip) →
      tryBindDecision peer uuid pk addr.ip = .identityMismatch ∧
      handleUdp inner g key pm (.registerPk id uuid pk) addr =
        { pm := pm, actions := [Action.sendRegisterPkResponse .UUID_MISMATCH] }) ∧
    (uuid ≠ peer.uuid →
      tryBindDecision peer uuid pk addr.ip = .identityMismatch ∧
      handleUdp inner g key pm (.registerPk id uuid pk) addr =
        { pm := pm, actions := [Action.sendRegisterPkResponse .UUID_MISMATCH] }) := by
  have hbind := handleUdp_registerPk_bind inner g key pm id uuid pk addr hUuid hPk
    (Nat.not_lt.mpr hlen) hg
  rw [hpeer] at hbind
  refine ⟨fun h => ?_, fun h => ?_, fun h => ?_⟩
  · obtain ⟨h1, h2, h3⟩ := h
    have hd := tryBind_roaming peer uuid pk addr.ip hbound h1.symm h2.symm (Ne.symm h3)
    exact ⟨hd, by rw [hbind, hd]; rfl⟩
  · obtain ⟨h1, h2, h3⟩ := h
    have hd := tryBind_pk_ip_mismatch peer uuid pk addr.ip hbound h1.symm (Ne.symm h2)
      (Ne.symm h3)
    exact ⟨hd, by rw [hbind, hd]⟩
  · have hd := tryBind_uuid_mismatch peer uuid pk addr.ip hbound (Ne.symm h)
    exact ⟨hd, by rw [hbind, hd]⟩

/-- Concrete directory for the C1 witness. -/
def pmC1 : PeerMap := [("abcdef", { uuid := "u1", pk := "k1", ip := "1.1.1.1" })]

/-- Witness for C1: the roaming case at concrete inputs. -/
theorem c1_bound_id_rebind_witness :
    tryBindDecision { uuid := "u1", pk := "k1", ip := "1.1.1.1" } "u1" "k1" "2.2.2.2" =
      BindResult.accepted true ∧
    handleUdp { serial := 0, rendezvousServers := [] } (fun _ _ => true) "" pmC1
        (.registerPk "abcdef" "u1" "k1") { ip := "2.2.2.2", port := 7 } =
      { pm := updatePk pmC1 "abcdef" "u1" "k1" "2.2.2.2",
        actions := [Action.sendRegisterPkResponse .OK] } :=
  (c1_bound_id_rebind { serial := 0, rendezvousServers := [] } (fun _ _ => true) "" pmC1
      "abcdef" "u1" "k1" { ip := "2.2.2.2", port := 7 }
      { uuid := "u1", pk := "k1", ip := "1.1.1.1" }
      (by decide) (by decide) (by decide) (by decide) (by decide) rfl).1
    ⟨rfl, rfl, by decide⟩

/-- Claim C3: processing the same RegisterPk twice from the same address,
with the first processing accepted (OK), makes the second processing a
`changed = false` acceptance: the directory update is not invoked, the
directory is unchanged, and the reply is still OK. -/
theorem c3_idempotent_reregistration (inner : Inner) (g : String → String → Bool)
    (key : String) (pm : PeerMap) (id uuid pk : String) (addr : SockAddr)
    (hUuid : uuid ≠ "") (hPk : pk ≠ "") (hlen : 6 ≤ id.length) (hg : g addr.ip id = true)
    (hfirst : (handleUdp inner g key pm (.registerPk id uuid pk) addr).actions =
      [Action.sendRegisterPkResponse .OK]) :
    tryBindDecision (getOr (handleUdp inner g key pm (.registerPk id uuid pk) addr).pm id)
        uuid pk addr.ip = .accepted false ∧
    handleUdp inner g key (handleUdp inner g key pm (.registerPk id uuid pk) addr).pm
        (.registerPk id uuid pk) addr =
      { pm := (handleUdp inner g key pm (.registerPk id uuid pk) addr).pm,
        actions := [Action.sendRegisterPkResponse .OK] } := by
  have hbind := handleUdp_registerPk_bind inner g key pm id uuid pk addr hUuid hPk
    (Nat.not_lt.mpr hlen) hg
  have hstored : getOr (handleUdp inner g key pm (.registerPk id uuid pk) addr).pm id =
      { uuid := uuid, pk := pk, ip := addr.ip } := by
    rw [hbind] at hfirst ⊢
    cases hd : tryBindDecision (getOr pm id) uuid pk addr.ip with
    | identityMismatch =>
      rw [hd] at hfirst
      have hne : ([Action.sendRegisterPkResponse RegisterPkResult.UUID_MISMATCH] : List Action) =
          [Action.sendRegisterPkResponse RegisterPkResult.OK] := hfirst
      exact absurd hne (by decide)
    | accepted changed =>
      cases changed with
      | true => simpa using getOr_updatePk pm id uuid pk addr.ip
      | false =>
        obtain ⟨e1, e2, e3⟩ := tryBind_accepted_false_inv _ _ _ _ hd
        have heta : getOr pm id =
            { uuid := (getOr pm id).uuid, pk := (getOr pm id).pk, ip := (getOr pm id).ip } := rfl
        show getOr pm id = ({ uuid := uuid, pk := pk, ip := addr.ip } : Peer)
        rw [heta, e1, e2, e3]
  have hsecond : tryBindDecision
      (getOr (handleUdp inner g key pm (.registerPk id uuid pk) addr).pm id)
      uuid pk addr.ip = .accepted false := by
    rw [hstored]
    exact tryBind_noop uuid pk addr.ip hUuid
  refine ⟨hsecond, ?_⟩
  have hbind2 := handleUdp_registerPk_bind inner g key
    (handleUdp inner g key pm (.registerPk id uuid pk) addr).pm id uuid pk addr
    hUuid hPk (Nat.not_lt.mpr hlen) hg
  rw [hbind2, hsecond]
  rfl

/-- Witness for C3: registering `abcdef` twice from the same address,
starting from the empty directory. -/
theorem c3_idempotent_reregistration_witness :
    tryBindDecision
        (getOr (handleUdp { serial := 0, rendezvousServers := [] } (fun _ _ => true) "" []
          (.registerPk "abcdef" "u1" "k1") { ip := "2.2.2.2", port := 7 }).pm "abcdef")
        "u1" "k1" "2.2.2.2" = BindResult.accepted false ∧
    handleUdp { serial := 0, rendezvousServers := [] } (fun _ _ => true) ""
        (handleUdp { serial := 0, rendezvousServers := [] } (fun _ _ => true) "" []
          (.registerPk "abcdef" "u1" "k1") { ip := "2.2.2.2", port := 7 }).pm
        (.registerPk "abcdef" "u1" "k1") { ip := "2.2.2.2", port := 7 } =
      { pm := (handleUdp { serial := 0, rendezvousServers := [] } (fun _ _ => true) "" []
          (.registerPk "abcdef" "u1" "k1") { ip := "2.2.2.2", port := 7 }).pm,
        actions := [Action.sendRegisterPkResponse .OK] } :=
  c3_idempotent_reregistration { serial := 0, rendezvousServers := [] } (fun _ _ => true) "" []
    "abcdef" "u1" "k1" { ip := "2.2.2.2", port := 7 }
    (by decide) (by decide) (by decide) rfl (by decide)

/-- Claim C10: a RegisterPk whose uuid or pk field is empty is silently
dropped: `handle_udp` returns success with no reply of any kind and the
peer directory untouched (the handler returns before any directory
access). -/
theorem c10_empty_uuid_or_pk_dropped (inner : Inner) (g : String → String → Bool)
    (key : String) (pm : PeerMap) (id uuid pk : String) (addr : SockAddr)
    (h : uuid = "" ∨ pk = "") :
    handleUdp inner g key pm (.registerPk id uuid pk) addr = { pm := pm, actions := [] } := by
  simp only [handleUdp]
  rw [if_pos h]

/-- Witness for C10 at a concrete empty-uuid message. -/
theorem c10_empty_uuid_or_pk_dropped_witness :
    handleUdp { serial := 0, rendezvousServers := [] } (fun _ _ => true) ""
        [("abcdef", { uuid := "u1", pk := "k1", ip := "1.1.1.1" })]
        (.registerPk "abcdef" "" "k1") { ip := "2.2.2.2", port := 7 } =
      { pm := [("abcdef", { uuid := "u1", pk := "k1", ip := "1.1.1.1" })], actions := [] } :=
  c10_empty_uuid_or_pk_dropped { serial := 0, rendezvousServers := [] } (fun _ _ => true) ""
    [("abcdef", { uuid := "u1", pk := "k1", ip := "1.1.1.1" })]
    "abcdef" "" "k1" { ip := "2.2.2.2", port := 7 } (Or.inl rfl)

/-- Claim C2: with a non-empty effective key and a differing supplied
licence key, the punch-hole arm replies LICENSE_MISMATCH, performs no
directory lookup (no `punchHoleLookup` effect, and the directory is
returned untouched), and the reply is identical for every state of the
peer directory. -/
theorem c2_license_gate_before_lookup (inner : Inner) (g : String → String → Bool)
    (key : String) (pm pmOther : PeerMap) (targetId licenceKey : String) (addr : SockAddr)
    (hkey : key ≠ "") (hlk : licenceKey ≠ key) :
    handleUdp inner g key pm (.punchHoleRequest targetId licenceKey) addr =
      { pm := pm, actions := [Action.sendPunchHoleLicenseMismatch] } ∧
    (handleUdp inner g key pm (.punchHoleRequest targetId licenceKey) addr).actions =
      (handleUdp inner g key pmOther (.punchHoleRequest targetId licenceKey) addr).actions := by
  constructor
  · simp only [handleUdp]
    rw [if_pos ⟨hkey, hlk⟩]
  · simp only [handleUdp]
    rw [if_pos ⟨hkey, hlk⟩, if_pos ⟨hkey, hlk⟩]

/-- Witness for C2: key "secret", wrong licence key, with the target both
absent and present in the directory. -/
theorem c2_license_gate_before_lookup_witness :
    handleUdp { serial := 0, rendezvousServers := [] } (fun _ _ => true) "secret" []
        (.punchHoleRequest "alice" "wrong") { ip := "2.2.2.2", port := 7 } =
      { pm := [], actions := [Action.sendPunchHoleLicenseMismatch] } ∧
    (handleUdp { serial := 0, rendezvousServers := [] } (fun _ _ => true) "secret" []
        (.punchHoleRequest "alice" "wrong") { ip := "2.2.2.2", port := 7 }).actions =
      (handleUdp { serial := 0, rendezvousServers := [] } (fun _ _ => true) "secret"
        [("alice", { uuid := "u1", pk := "k1", ip := "1.1.1.1" })]
        (.punchHoleRequest "alice" "wrong") { ip := "2.2.2.2", port := 7 }).actions :=
  c2_license_gate_before_lookup { serial := 0, rendezvousServers := [] } (fun _ _ => true)
    "secret" [] [("alice", { uuid := "u1", pk := "k1", ip := "1.1.1.1" })]
    "alice" "wrong" { ip := "2.2.2.2", port := 7 } (by decide) (by decide)

/-- Claim C6: for a RegisterPk with non-empty uuid and pk, an id shorter
than 6 characters is answered with UUID_MISMATCH without touching the
directory; otherwise, when the IP/abuse guard reports the source over its
threshold, the reply is TOO_FREQUENT, again without touching the
directory. -/
theorem c6_short_id_and_rate_guard (inner : Inner) (g : String → String → Bool)
    (key : String) (pm : PeerMap) (id uuid pk : String) (addr : SockAddr)
    (hUuid : uuid ≠ "") (hPk : pk ≠ "") :
    (id.length < 6 →
      handleUdp inner g key pm (.registerPk id uuid pk) addr =
        { pm := pm, actions := [Action.sendRegisterPkResponse .UUID_MISMATCH] }) ∧
    (6 ≤ id.length → g addr.ip id = false →
      handleUdp inner g key pm (.registerPk id uuid pk) addr =
        { pm := pm, actions := [Action.sendRegisterPkResponse .TOO_FREQUENT] }) := by
  constructor
  · intro hlt
    simp [handleUdp, hUuid, hPk, hlt]
  · intro hge hblock
    simp [handleUdp, hUuid, hPk, Nat.not_lt.mpr hge, hblock]

/-- Witness for C6: a five-character id, and a six-character id with the
guard signalling over-threshold. -/
theorem c6_short_id_and_rate_guard_witness :
    handleUdp { serial := 0, rendezvousServers := [] } (fun _ _ => true) "" []
        (.registerPk "abcde" "u1" "k1") { ip := "2.2.2.2", port := 7 } =
      { pm := [], actions := [Action.sendRegisterPkResponse .UUID_MISMATCH] } ∧
    handleUdp { serial := 0, rendezvousServers := [] } (fun _ _ => false) "" []
        (.registerPk "abcdef" "u1" "k1") { ip := "2.2.2.2", port := 7 } =
      { pm := [], actions := [Action.sendRegisterPkResponse .TOO_FREQUENT] } :=
  ⟨(c6_short_id_and_rate_guard { serial := 0, rendezvousServers := [] } (fun _ _ => true) "" []
      "abcde" "u1" "k1" { ip := "2.2.2.2", port := 7 } (by decide) (by decide)).1 (by decide),
   (c6_short_id_and_rate_guard { serial := 0, rendezvousServers := [] } (fun _ _ => false) "" []
      "abcdef" "u1" "k1" { ip := "2.2.2.2", port := 7 } (by decide) (by decide)).2
     (by decide) rfl⟩

/-- Claim C7: a RegisterPeer with non-empty id records the sender's
observed address for that id and sends a ConfigUpdate with the server's
serial and configured rendezvous-server list exactly when the sender's
serial is strictly behind the server's; with an empty id nothing is
recorded and nothing is sent. -/
theorem c7_register_peer (inner : Inner) (g : String → String → Bool) (key : String)
    (pm : PeerMap) (id : String) (serial : Int) (addr : SockAddr) :
    (id ≠ "" →
      Action.recordAddr id addr ∈
        (handleUdp inner g key pm (.registerPeer id serial) addr).actions ∧
      (Action.sendConfigUpdate inner.serial inner.rendezvousServers ∈
          (handleUdp inner g key pm (.registerPeer id serial) addr).actions ↔
        serial < inner.serial) ∧
      handleUdp inner g key pm (.registerPeer id serial) addr =
        { pm := pm,
          actions := [Action.registerDevice id addr.ip, Action.recordAddr id addr] ++
            (if inner.serial > serial then
              [Action.sendConfigUpdate inner.serial inner.rendezvousServers]
            else []) }) ∧
    (id = "" →
      handleUdp inner g key pm (.registerPeer id serial) addr = { pm := pm, actions := [] }) := by
  constructor
  · intro hid
    by_cases hser : inner.serial > serial
    · refine ⟨?_, ?_, ?_⟩ <;> simp [handleUdp, hid, hser]
    · refine ⟨?_, ?_, ?_⟩ <;> simp [handleUdp, hid, hser, Int.not_lt.mp hser]
  · intro hid
    simp [handleUdp, hid]

/-- Witness for C7: non-empty id with a stale sender serial, and the
empty id. -/
theorem c7_register_peer_witness :
    Action.recordAddr "abcdef" { ip := "2.2.2.2", port := 7 } ∈
      (handleUdp { serial := 3, rendezvousServers := ["rs1"] } (fun _ _ => true) "" []
        (.registerPeer "abcdef" 1) { ip := "2.2.2.2", port := 7 }).actions ∧
    (Action.sendConfigUpdate 3 ["rs1"] ∈
        (handleUdp { serial := 3, rendezvousServers := ["rs1"] } (fun _ _ => true) "" []
          (.registerPeer "abcdef" 1) { ip := "2.2.2.2", port := 7 }).actions ↔
      (1 : Int) < 3) ∧
    handleUdp { serial := 3, rendezvousServers := ["rs1"] } (fun _ _ => true) "" []
        (.registerPeer "" 1) { ip := "2.2.2.2", port := 7 } = { pm := [], actions := [] } := by
  have h := c7_register_peer { serial := 3, rendezvousServers := ["rs1"] } (fun _ _ => true) "" []
    "abcdef" 1 { ip := "2.2.2.2", port := 7 }
  have h2 := c7_register_peer { serial := 3, rendezvousServers := ["rs1"] } (fun _ _ => true) "" []
    "" 1 { ip := "2.2.2.2", port := 7 }
  exact ⟨(h.1 (by decide)).1, (h.1 (by decide)).2.1, h2.2 rfl⟩

/-- Counterexample for C4: with the configured key `"-"`, `get_server_sk`
replaces the key by the generated public key (here a non-empty parameter
standing for the base64 public key `gen_sk` returns), so a
PunchHoleRequest with a different licence key receives LICENSE_MISMATCH —
the check is not disabled. -/
theorem c4_counterexample :
    getServerSkKey (fun _ => none) (fun _ => "") "GENPK" "-" = "GENPK" ∧
    (handleUdp { serial := 0, rendezvousServers := [] } (fun _ _ => true)
        (getServerSkKey (fun _ => none) (fun _ => "") "GENPK" "-")
        [] (.punchHoleRequest "target" "wrong") { ip := "1.1.1.1", port := 7 }).actions =
      [Action.sendPunchHoleLicenseMismatch] := by
  constructor
  · rfl
  · rfl

/-- Claim C4 (amended): an empty configured key yields an empty effective
key, so every PunchHoleRequest passes the license gate and no
LICENSE_MISMATCH reply is produced; a configured key of `"-"` however is
replaced by the generated public key (non-empty), so the check stays
active and a differing supplied licence key receives LICENSE_MISMATCH.
The hypotheses on `decode64` state the base64 facts used by the source:
decoding `""` gives the empty byte string and decoding `"-"` fails. -/
theorem c4_amended_empty_key_disables (decode64 : String → Option (List Nat))
    (encode64 : List Nat → String) (genPk : String) (inner : Inner)
    (g : String → String → Bool) (pm : PeerMap) (targetId licenceKey : String)
    (addr : SockAddr)
    (hdec0 : decode64 "" = some []) (hdec1 : decode64 "-" = none) (hpk : genPk ≠ "") :
    getServerSkKey decode64 encode64 genPk "" = "" ∧
    Action.sendPunchHoleLicenseMismatch ∉
      (handleUdp inner g (getServerSkKey decode64 encode64 genPk "") pm
        (.punchHoleRequest targetId licenceKey) addr).actions ∧
    getServerSkKey decode64 encode64 genPk "-" = genPk ∧
    (licenceKey ≠ genPk →
      (handleUdp inner g (getServerSkKey decode64 encode64 genPk "-") pm
        (.punchHoleRequest targetId licenceKey) addr).actions =
        [Action.sendPunchHoleLicenseMismatch]) := by
  have hk0 : getServerSkKey decode64 encode64 genPk "" = "" := by
    simp [getServerSkKey, hdec0, SECRETKEYBYTES]
  have hk1 : getServerSkKey decode64 encode64 genPk "-" = genPk := by
    simp [getServerSkKey, hdec1]
    intro h
    exact absurd h (by decide)
  refine ⟨hk0, ?_, hk1, fun hlk => ?_⟩
  · rw [hk0]
    simp [handleUdp]
  · rw [hk1]
    simp [handleUdp, hpk, hlk]

/-- Witness for C4's amended statement at concrete inputs. -/
theorem c4_amended_empty_key_disables_witness :
    getServerSkKey (fun s => if s = "" then some [] else none) (fun _ => "") "GENPK" "" = "" ∧
    Action.sendPunchHoleLicenseMismatch ∉
      (handleUdp { serial := 0, rendezvousServers := [] } (fun _ _ => true)
        (getServerSkKey (fun s => if s = "" then some [] else none) (fun _ => "") "GENPK" "")
        [] (.punchHoleRequest "target" "anything") { ip := "1.1.1.1", port := 7 }).actions ∧
    getServerSkKey (fun s => if s = "" then some [] else none) (fun _ => "") "GENPK" "-" =
      "GENPK" ∧
    ("anything" ≠ "GENPK" →
      (handleUdp { serial := 0, rendezvousServers := [] } (fun _ _ => true)
        (getServerSkKey (fun s => if s = "" then some [] else none) (fun _ => "") "GENPK" "-")
        [] (.punchHoleRequest "target" "anything") { ip := "1.1.1.1", port := 7 }).actions =
        [Action.sendPunchHoleLicenseMismatch]) :=
  c4_amended_empty_key_disables (fun s => if s = "" then some [] else none) (fun _ => "")
    "GENPK" { serial := 0, rendezvousServers := [] } (fun _ _ => true) []
    "target" "anything" { ip := "1.1.1.1", port := 7 } (by decide) (by decide) (by decide)

/-- `recreateFailed` is the recreation call for the failed kind, patched
into exactly that resource slot on success and propagated on failure. -/
lemma recreateFailed_eq (cu ct : Int → Except String Resource) (port : Int)
    (f : LoopFailure) (r : Resources) :
    recreateFailed cu ct port f r =
      match recreateCall cu ct port f with
      | .ok s =>
        .ok (match f with
          | .UdpSocket => { r with socket := s }
          | .Listener => { r with listener := s }
          | .Listener2 => { r with listener2 := s }
          | .Listener3 => { r with listener3 := s })
      | .error e => .error e := by
  cases f <;> rfl

/-- Claim C5: on a single-resource failure the supervisor recreates
exactly the failed transport resource, rebinding its original port
(`port` for the UDP socket and main listener, `port - 1` for the
NAT-probe listener, `port + 2` for the WebSocket listener), leaves the
other three resources untouched and continues serving; only a failure of
the recreation call itself escalates as a fatal error. -/
theorem c5_transport_fault_isolation (cu ct : Int → Except String Resource) (port : Int)
    (r : Resources) (f : LoopFailure) :
    (∀ r1, recreateFailed cu ct port f r = Except.ok r1 →
      (f ≠ LoopFailure.UdpSocket → r1.socket = r.socket) ∧
      (f ≠ LoopFailure.Listener → r1.listener = r.listener) ∧
      (f ≠ LoopFailure.Listener2 → r1.listener2 = r.listener2) ∧
      (f ≠ LoopFailure.Listener3 → r1.listener3 = r.listener3) ∧
      (f = LoopFailure.UdpSocket → cu port = Except.ok r1.socket) ∧
      (f = LoopFailure.Listener → ct port = Except.ok r1.listener) ∧
      (f = LoopFailure.Listener2 → ct (port - 1) = Except.ok r1.listener2) ∧
      (f = LoopFailure.Listener3 → ct (port + 2) = Except.ok r1.listener3)) ∧
    (∀ e, recreateFailed cu ct port f r = Except.error e →
      recreateCall cu ct port f = Except.error e) := by
  constructor
  · intro r1 h
    rw [recreateFailed_eq] at h
    cases hc : recreateCall cu ct port f with
    | error e =>
      rw [hc] at h
      exact Except.noConfusion h
    | ok s =>
      rw [hc] at h
      injection h with h
      subst h
      cases f <;> simp_all [recreateCall]
  · intro e h
    rw [recreateFailed_eq] at h
    cases hc : recreateCall cu ct port f with
    | error e2 =>
      rw [hc] at h
      injection h with h
      subst h
      rfl
    | ok s =>
      rw [hc] at h
      exact Except.noConfusion h

/-- Successful UDP recreation for the C5 witness. -/
def cuW : Int → Except String Resource := fun p => Except.ok { port := p, gen := 1 }

/-- Failing recreation for the C5 witness. -/
def cuErrW : Int → Except String Resource := fun _ => Except.error "bind failed"

/-- Initial resources for the C5 witness (base port 9000). -/
def resW : Resources :=
  { socket := { port := 9000, gen := 0 }
    listener := { port := 9000, gen := 0 }
    listener2 := { port := 8999, gen := 0 }
    listener3 := { port := 9002, gen := 0 } }

/-- Recovered resources for the C5 witness. -/
def resW1 : Resources := { resW with socket := { port := 9000, gen := 1 } }

/-- Witness for C5: a UDP failure leaves the main listener alone and
recreates the socket on port 9000, and a failing recreation escalates. -/
theorem c5_transport_fault_isolation_witness :
    (resW1.listener = resW.listener ∧ cuW 9000 = Except.ok resW1.socket) ∧
    recreateCall cuErrW cuW 9000 LoopFailure.UdpSocket = Except.error "bind failed" := by
  have h1 := (c5_transport_fault_isolation cuW cuW 9000 resW LoopFailure.UdpSocket).1 resW1
    rfl
  exact ⟨⟨h1.2.1 (by decide), h1.2.2.2.2.1 rfl⟩,
    (c5_transport_fault_isolation cuErrW cuW 9000 resW LoopFailure.UdpSocket).2
      "bind failed" rfl⟩

/-- Claim C8: `create_device_session` with a present user id installs the
full tier (all five capabilities on) with an eight-hour (28800 s) timeout
and marks the session authenticated; with an absent user id it installs
the default tier (all five capabilities off) with a one-hour (3600 s)
timeout and `authenticated = false`. -/
theorem c8_session_tier_assignment (now : Nat) (device_id uid : String) :
    ((createDeviceSession now device_id (some uid)).permissions.can_control = true ∧
     (createDeviceSession now device_id (some uid)).permissions.can_transfer_files = true ∧
     (createDeviceSession now device_id (some uid)).permissions.can_view_screen = true ∧
     (createDeviceSession now device_id (some uid)).permissions.can_use_audio = true ∧
     (createDeviceSession now device_id (some uid)).permissions.can_use_clipboard = true ∧
     (createDeviceSession now device_id (some uid)).permissions.session_timeout = some 28800 ∧
     (createDeviceSession now device_id (some uid)).authenticated = true) ∧
    ((createDeviceSession now device_id none).permissions = DevicePermissions.default ∧
     (createDeviceSession now device_id none).permissions.can_control = false ∧
     (createDeviceSession now device_id none).permissions.can_transfer_files = false ∧
     (createDeviceSession now device_id none).permissions.can_view_screen = false ∧
     (createDeviceSession now device_id none).permissions.can_use_audio = false ∧
     (createDeviceSession now device_id none).permissions.can_use_clipboard = false ∧
     (createDeviceSession now device_id none).permissions.session_timeout = some 3600 ∧
     (createDeviceSession now device_id none).authenticated = false) :=
  ⟨⟨rfl, rfl, rfl, rfl, rfl, rfl, rfl⟩, ⟨rfl, rfl, rfl, rfl, rfl, rfl, rfl, rfl⟩⟩

/-- The retain predicate holds exactly when every configured timeout is
not yet exceeded. -/
lemma sessionRetained_iff (now : Nat) (s : DeviceSession) :
    sessionRetained now s = true ↔
      ∀ t, s.permissions.session_timeout = some t → now - s.last_activity ≤ t := by
  unfold sessionRetained
  rcases h : s.permissions.session_timeout with _ | t
  · simp [h]
  · by_cases hgt : now - s.last_activity > t
    · simp [h, hgt]
      omega
    · simp [h, hgt]
      omega

/-- Claim C9: one sweep removes exactly the sessions whose idle time
(now minus last_activity) strictly exceeds their configured timeout;
sessions within their timeout and sessions without a configured timeout
are retained unchanged (the result is a sublist of the input). -/
theorem c9_sweep_exact (now : Nat) (sessions : List (String × DeviceSession))
    (e : String × DeviceSession) :
    (e ∈ cleanupExpiredSessions now sessions ↔
      e ∈ sessions ∧ ∀ t, e.2.permissions.session_timeout = some t →
        now - e.2.last_activity ≤ t) ∧
    (cleanupExpiredSessions now sessions).Sublist sessions := by
  constructor
  · simp only [cleanupExpiredSessions, List.mem_filter, sessionRetained_iff]
  · exact List.filter_sublist _

/-- Session still inside its one-hour timeout for the C9 witness. -/
def sessInW : DeviceSession :=
  { device_id := "devA", user_id := none, authenticated := false, last_activity := 2000,
    permissions := DevicePermissions.default, connection_count := 1 }

/-- Session past its one-hour timeout for the C9 witness. -/
def sessOutW : DeviceSession :=
  { device_id := "devB", user_id := none, authenticated := false, last_activity := 0,
    permissions := DevicePermissions.default, connection_count := 1 }

/-- Session with no configured timeout for the C9 witness. -/
def sessNoneW : DeviceSession :=
  { device_id := "devC", user_id := none, authenticated := false, last_activity := 0,
    permissions :=
      { can_control := false, can_transfer_files := false, can_view_screen := false,
        can_use_audio := false, can_use_clipboard := false, session_timeout := none },
    connection_count := 1 }

/-- Witness for C9 at time 5000: the in-timeout and no-timeout sessions
survive the sweep, the expired one does not. -/
theorem c9_sweep_exact_witness :
    ("a", sessInW) ∈
      cleanupExpiredSessions 5000 [("a", sessInW), ("b", sessOutW), ("c", sessNoneW)] ∧
    ("c", sessNoneW) ∈
      cleanupExpiredSessions 5000 [("a", sessInW), ("b", sessOutW), ("c", sessNoneW)] ∧
    ("b", sessOutW) ∉
      cleanupExpiredSessions 5000 [("a", sessInW), ("b", sessOutW), ("c", sessNoneW)] := by
  refine ⟨?_, ?_, fun hmem => ?_⟩
  · exact (c9_sweep_exact 5000 [("a", sessInW), ("b", sessOutW), ("c", sessNoneW)]
      ("a", sessInW)).1.mpr ⟨by decide, by intro t ht; cases ht; decide⟩
  · exact (c9_sweep_exact 5000 [("a", sessInW), ("b", sessOutW), ("c", sessNoneW)]
      ("c", sessNoneW)).1.mpr ⟨by decide, by intro t ht; cases ht⟩
  · exact absurd (((c9_sweep_exact 5000 [("a", sessInW), ("b", sessOutW), ("c", sessNoneW)]
      ("b", sessOutW)).1.mp hmem).2 3600 rfl) (by decide)

end Rdz
